import Mathlib

/-!
Verification of the chat-app backend core (`backend_python/main.py`,
`backend_python/schemas.py`): the message validator and the reply engine.

The embedding models Python strings as Lean `String` (one `Char` per Unicode
code point, matching Python `len`).  `str.strip`, `str.lower` and
`str.isalnum` are Unicode-aware in Python; here they are modelled on the
Basic Latin and Latin-1 ranges, which cover every literal the program
matches against and every character class the claims quantify over.
-/

/-- Python `str.isspace` for the characters `strip()` removes, modelled on
the ASCII/Latin-1 range: space, tab, newline, carriage return, vertical
tab, form feed, next line (U+0085) and no-break space (U+00A0). -/
def pyIsSpace (c : Char) : Bool :=
  c == ' ' || c == '\t' || c == '\n' || c == '\r' ||
  c.toNat == 11 || c.toNat == 12 || c.toNat == 0x85 || c.toNat == 0xA0

/-- Python `c.isalnum()` modelled on the ASCII and Latin-1 ranges: digits,
ASCII letters, and the Latin-1 letters (excluding the two operators
U+00D7 and U+00F7). -/
def pyIsAlnum (c : Char) : Bool :=
  ('0' ≤ c && c ≤ '9') || ('a' ≤ c && c ≤ 'z') || ('A' ≤ c && c ≤ 'Z') ||
  (0xC0 ≤ c.toNat && c.toNat ≤ 0xFF && c.toNat != 0xD7 && c.toNat != 0xF7)

/-- Left trim on the character list: drop leading whitespace. -/
def trimL (l : List Char) : List Char := l.dropWhile pyIsSpace

/-- Python `str.strip` on the character list: drop leading whitespace,
then drop trailing whitespace (via reverse). -/
def stripList (l : List Char) : List Char :=
  (((l.dropWhile pyIsSpace).reverse).dropWhile pyIsSpace).reverse

/-- Python `s.strip()`. -/
def pyStrip (s : String) : String := String.mk (stripList s.data)

/-- The error taxonomy of the spec (section 7).  In the code, `TooLong`
is Pydantic's `string_too_long` for the `max_length=1000` field
constraint, `EmptyMessage` covers Pydantic's `string_too_short`
(`min_length=1`, reachable only by the empty string) together with the
custom validator's "Mensagem não pode estar vazia" `ValueError`,
`NoAlphanumericContent` is the validator's "pelo menos um caractere
alfanumérico" `ValueError`, and `MissingField` is the missing-field
error for an absent `message` key. -/
inductive ValidationError where
  | MissingField
  | EmptyMessage
  | NoAlphanumericContent
  | TooLong
deriving DecidableEq, Repr

/-- The validation pipeline applied to the `message` field of
`ChatRequest` (`schemas.py`).  Pydantic applies the `Field` constraints
`min_length=1` / `max_length=1000` to the raw string first; the
`@field_validator` (mode "after") then strips the string, rejects it if
empty after strip or if no character is alphanumeric, and otherwise
returns the stripped string. -/
def validate (s : String) : Except ValidationError String :=
  if 1000 < s.length then .error .TooLong
  else if s.length < 1 then .error .EmptyMessage
  else if (pyStrip s).length = 0 then .error .EmptyMessage
  else if (pyStrip s).data.any pyIsAlnum = false then .error .NoAlphanumericContent
  else .ok (pyStrip s)

/-- Validation at the field level: an absent `message` key is rejected
by Pydantic as a missing required field. -/
def validateField : Option String → Except ValidationError String
  | none => .error .MissingField
  | some s => validate s

lemma length_mk (l : List Char) : (String.mk l).length = l.length := rfl

/-- Claim C2: any raw input longer than 1000 characters is rejected as too long,
whatever its content: the `max_length` constraint fires before the
custom validator ever runs. -/
theorem validate_tooLong (s : String) (h : 1000 < s.length) :
    validate s = .error .TooLong := by
  unfold validate
  rw [if_pos h]

/-- Witness for C2: a 1001-character string of identical characters is
rejected as too long. -/
theorem validate_tooLong_witness :
    1000 < (String.mk (List.replicate 1001 'a')).length ∧
    validate (String.mk (List.replicate 1001 'a')) = .error .TooLong := by
  have h : 1000 < (String.mk (List.replicate 1001 'a')).length := by
    rw [length_mk, List.length_replicate]
    norm_num
  exact ⟨h, validate_tooLong _ h⟩

lemma trimL_trimL (l : List Char) : trimL (trimL l) = trimL l := by
  induction l with
  | nil => rfl
  | cons a t ih =>
    by_cases h : pyIsSpace a = true
    · simp only [trimL, List.dropWhile_cons, if_pos h] at ih ⊢; exact ih
    · simp only [trimL, List.dropWhile_cons, if_neg h]

lemma trimL_head (l : List Char) (x : Char) (xs : List Char)
    (h : trimL l = x :: xs) : pyIsSpace x = false := by
  induction l with
  | nil => cases h
  | cons a t ih =>
    rw [trimL, List.dropWhile_cons] at h
    by_cases ha : pyIsSpace a = true
    · rw [if_pos ha] at h; exact ih h
    · rw [if_neg ha] at h; cases h; simpa using ha

lemma trimL_append (xs : List Char) (a : Char) (ha : pyIsSpace a = false) :
    trimL (xs ++ [a]) = trimL xs ++ [a] := by
  induction xs with
  | nil => simp [trimL, List.dropWhile_cons, ha]
  | cons x t ih =>
    by_cases hx : pyIsSpace x = true
    · simp only [trimL, List.cons_append, List.dropWhile_cons, if_pos hx] at ih ⊢
      exact ih
    · simp only [trimL, List.cons_append, List.dropWhile_cons, if_neg hx]

lemma trimL_stripList (l : List Char) : trimL (stripList l) = stripList l := by
  cases hA : trimL l with
  | nil =>
    have hs : stripList l = [] := by
      show (trimL ((trimL l).reverse)).reverse = []
      rw [hA]; rfl
    rw [hs]; rfl
  | cons a as =>
    have ha : pyIsSpace a = false := trimL_head l a as hA
    have hs : stripList l = a :: (trimL as.reverse).reverse := by
      show (trimL ((trimL l).reverse)).reverse = _
      rw [hA, List.reverse_cons, trimL_append as.reverse a ha, List.reverse_append]
      rfl
    rw [hs, trimL, List.dropWhile_cons, if_neg (by simp [ha])]

lemma trimL_reverse_stripList (l : List Char) :
    trimL (stripList l).reverse = (stripList l).reverse := by
  show trimL ((trimL ((trimL l).reverse)).reverse).reverse =
    ((trimL ((trimL l).reverse)).reverse).reverse
  rw [List.reverse_reverse, trimL_trimL]

lemma stripList_stripList (l : List Char) : stripList (stripList l) = stripList l := by
  show (trimL ((trimL (stripList l)).reverse)).reverse = stripList l
  rw [trimL_stripList, trimL_reverse_stripList, List.reverse_reverse]

lemma mem_of_mem_stripList {c : Char} {l : List Char} (h : c ∈ stripList l) : c ∈ l := by
  simp only [stripList, List.mem_reverse] at h
  have h1 := (List.dropWhile_sublist pyIsSpace).mem h
  rw [List.mem_reverse] at h1
  exact (List.dropWhile_sublist pyIsSpace).mem h1

lemma length_stripList_le (l : List Char) : (stripList l).length ≤ l.length := by
  simp only [stripList, List.length_reverse]
  calc ((l.dropWhile pyIsSpace).reverse.dropWhile pyIsSpace).length
      ≤ (l.dropWhile pyIsSpace).reverse.length := (List.dropWhile_sublist _).length_le
    _ = (l.dropWhile pyIsSpace).length := List.length_reverse _
    _ ≤ l.length := (List.dropWhile_sublist _).length_le

lemma stripList_eq_nil_of_space (l : List Char) (h : ∀ c ∈ l, pyIsSpace c = true) :
    stripList l = [] := by
  have h1 : l.dropWhile pyIsSpace = [] :=
    List.dropWhile_eq_nil_iff.mpr (fun x hx => h x hx)
  simp [stripList, h1]

lemma pyStrip_pyStrip (s : String) : pyStrip (pyStrip s) = pyStrip s := by
  show String.mk (stripList (stripList s.data)) = String.mk (stripList s.data)
  rw [stripList_stripList]

lemma pyStrip_length_le (s : String) : (pyStrip s).length ≤ s.length :=
  length_stripList_le s.data

/-- Claim C3 (amended): for every input string of raw length at most 1000
that is empty or whitespace-only, validation fails with `EmptyMessage`;
an absent `message` field fails with `MissingField`.  (The length bound
is forced: the `max_length` constraint runs first, so an over-long
whitespace string fails with `TooLong` instead.) -/
theorem validate_whitespace (s : String) (hlen : s.length ≤ 1000)
    (hws : ∀ c ∈ s.data, pyIsSpace c = true) :
    validateField (some s) = .error .EmptyMessage ∧
    validateField none = .error .MissingField := by
  refine ⟨?_, rfl⟩
  show validate s = .error .EmptyMessage
  unfold validate
  rw [if_neg (by omega)]
  by_cases h0 : s.length < 1
  · rw [if_pos h0]
  · rw [if_neg h0]
    have hnil : stripList s.data = [] := stripList_eq_nil_of_space _ hws
    have hz : (pyStrip s).length = 0 := by
      show (stripList s.data).length = 0
      rw [hnil]; rfl
    rw [if_pos hz]

/-- Witness for C3: the three-space string is rejected as empty, and a
missing field is rejected as missing. -/
theorem validate_whitespace_witness :
    validateField (some "   ") = .error .EmptyMessage ∧
    validateField none = .error .MissingField :=
  validate_whitespace "   " (by decide) (by decide)

/-- Counterexample for C3 as stated: a 1001-character whitespace-only
string is not rejected with `EmptyMessage` (the `max_length` constraint
fires first, reporting `TooLong`). -/
theorem validate_whitespace_counterexample :
    (∀ c ∈ (String.mk (List.replicate 1001 ' ')).data, pyIsSpace c = true) ∧
    validateField (some (String.mk (List.replicate 1001 ' '))) ≠
      .error .EmptyMessage := by
  constructor
  · intro c hc
    have hc' : c = ' ' := List.eq_of_mem_replicate hc
    rw [hc']; rfl
  · show validate _ ≠ _
    unfold validate
    rw [if_pos (by rw [length_mk, List.length_replicate]; norm_num)]
    simp

/-- Claim C4 (amended): for every input string of raw length at most
1000 that has no alphanumeric character but is non-empty after
trimming, validation fails with `NoAlphanumericContent`.  (The length
bound is forced: the `max_length` constraint runs first, so an
over-long punctuation string fails with `TooLong` instead.) -/
theorem validate_noAlnum (s : String) (hlen : s.length ≤ 1000)
    (halnum : ∀ c ∈ s.data, pyIsAlnum c = false)
    (hne : (pyStrip s).length ≠ 0) :
    validate s = .error .NoAlphanumericContent := by
  unfold validate
  rw [if_neg (by omega)]
  have h1 : ¬ (s.length < 1) := by
    rcases Nat.lt_or_ge s.length 1 with h | h
    · exfalso
      have hd : s.data = [] := List.length_eq_zero.mp (Nat.lt_one_iff.mp h)
      apply hne
      show (stripList s.data).length = 0
      rw [hd]; rfl
    · omega
  rw [if_neg h1, if_neg hne]
  have hany : (pyStrip s).data.any pyIsAlnum = false := by
    rw [Bool.eq_false_iff]
    intro hcon
    rw [List.any_eq_true] at hcon
    obtain ⟨c, hc, hpc⟩ := hcon
    have hcs : c ∈ s.data := mem_of_mem_stripList hc
    rw [halnum c hcs] at hpc; cases hpc
  rw [if_pos hany]

/-- Witness for C4: the string of three exclamation marks is rejected
for lacking alphanumeric content. -/
theorem validate_noAlnum_witness :
    (pyStrip "!!!").length ≠ 0 ∧
    validate "!!!" = .error .NoAlphanumericContent :=
  ⟨by decide, validate_noAlnum "!!!" (by decide) (by decide) (by decide)⟩

/-- Counterexample for C4 as stated: a 1001-character string of
exclamation marks has no alphanumeric character and is non-empty after
trimming, yet it is not rejected with `NoAlphanumericContent` (the
`max_length` constraint fires first, reporting `TooLong`). -/
theorem validate_noAlnum_counterexample :
    (∀ c ∈ (String.mk (List.replicate 1001 '!')).data, pyIsAlnum c = false) ∧
    (pyStrip (String.mk (List.replicate 1001 '!'))).length ≠ 0 ∧
    validate (String.mk (List.replicate 1001 '!')) ≠
      .error .NoAlphanumericContent := by
  have hbang : pyIsSpace '!' = false := by decide
  have hrep : ∀ n : Nat, trimL (List.replicate n '!') = List.replicate n '!' := by
    intro n
    cases n with
    | zero => rfl
    | succ m => rw [List.replicate_succ, trimL, List.dropWhile_cons, if_neg (by simp [hbang])]
  refine ⟨?_, ?_, ?_⟩
  · intro c hc
    have hc' : c = '!' := List.eq_of_mem_replicate hc
    rw [hc']; rfl
  · show (stripList (List.replicate 1001 '!')).length ≠ 0
    have hstrip : stripList (List.replicate 1001 '!') = List.replicate 1001 '!' := by
      show (trimL ((trimL (List.replicate 1001 '!')).reverse)).reverse = _
      rw [hrep 1001, List.reverse_replicate, hrep 1001, List.reverse_replicate]
    rw [hstrip, List.length_replicate]
    norm_num
  · unfold validate
    rw [if_pos (by rw [length_mk, List.length_replicate]; norm_num)]
    simp

/-- Claim C5: for every string accepted by the validator, the returned
clean message is the input with leading and trailing whitespace
removed, and validation is idempotent on its own output: validating the
clean message succeeds and returns it unchanged. -/
theorem validate_trim_idem (s t : String) (h : validate s = .ok t) :
    t = pyStrip s ∧ validate t = .ok t := by
  unfold validate at h
  split_ifs at h with h1 h2 h3 h4
  cases h
  refine ⟨rfl, ?_⟩
  have hlen : (pyStrip s).length ≤ 1000 :=
    le_trans (pyStrip_length_le s) (by omega)
  unfold validate
  rw [pyStrip_pyStrip]
  rw [if_neg (by omega), if_neg (by omega), if_neg h3, if_neg h4]

/-- Witness for C5: validating a padded greeting returns the trimmed
string, which validates to itself. -/
theorem validate_trim_idem_witness :
    "oi" = pyStrip "  oi  " ∧ validate "oi" = .ok "oi" :=
  validate_trim_idem "  oi  " "oi" (by rfl)

/-- Python `str.lower` on one character, modelled on the Basic Latin and
Latin-1 ranges: ASCII uppercase and the Latin-1 uppercase letters
(U+00C0 to U+00DE except the operator U+00D7) map down by 32. -/
def pyCharLower (c : Char) : Char :=
  if 'A' ≤ c && c ≤ 'Z' then Char.ofNat (c.toNat + 32)
  else if 0xC0 ≤ c.toNat && c.toNat ≤ 0xDE && c.toNat != 0xD7 then
    Char.ofNat (c.toNat + 32)
  else c

/-- Python `s.lower()`. -/
def pyLower (s : String) : String := String.mk (s.data.map pyCharLower)

/-- Does the haystack start with the pattern? -/
def leadsWith : List Char → List Char → Bool
  | [], _ => true
  | _ :: _, [] => false
  | p :: ps, h :: hs => p == h && leadsWith ps hs

/-- Substring search: Python's `pat in hay` on character lists. -/
def hasSub (pat : List Char) : List Char → Bool
  | [] => leadsWith pat []
  | h :: hs => leadsWith pat (h :: hs) || hasSub pat hs

/-- Python `pat in s`. -/
def strContains (s pat : String) : Bool := hasSub pat.data s.data

/-- The fixed greeting reply of `main.py`. -/
def greetingReply : String := "Olá! Como posso ajudar você hoje? 😊"

/-- The fixed well-being reply of `main.py`. -/
def wellBeingReply : String :=
  "Estou muito bem, obrigado por perguntar! E você, como está?"

/-- The fixed farewell reply of `main.py`. -/
def farewellReply : String := "Até logo! Foi um prazer conversar com você! 👋"

/-- The fixed help-offer reply of `main.py`. -/
def helpReply : String := "Claro! Estou aqui para ajudar. O que você precisa?"

/-- The question-acknowledgement f-string template of `main.py`, with the
original message interpolated. -/
def questionReply (message : String) : String :=
  "Boa pergunta! Sobre \"" ++ message ++
    "\", eu diria que é um tópico interessante para explorarmos."

/-- The 8-element random fallback pool `BOT_RESPONSES` of `main.py`. -/
def BOT_RESPONSES : List String := [
  "Interessante! Me conte mais sobre isso.",
  "Entendo o que você está dizendo.",
  "Isso é muito legal! Continue...",
  "Hmm, deixe-me pensar sobre isso...",
  "Ótima pergunta! Aqui está o que penso:",
  "Posso ajudar você com isso!",
  "Isso me lembra de algo importante.",
  "Vamos explorar essa ideia juntos!"]

/-- Guard of the first ladder rung: the lower-cased message contains
"olá" or "oi". -/
def gOla (m : String) : Bool :=
  strContains (pyLower m) "olá" || strContains (pyLower m) "oi"

/-- Guard of the second rung: the lower-cased message contains "como vai". -/
def gComoVai (m : String) : Bool := strContains (pyLower m) "como vai"

/-- Guard of the third rung: the lower-cased message contains "tchau" or
"adeus". -/
def gFarewell (m : String) : Bool :=
  strContains (pyLower m) "tchau" || strContains (pyLower m) "adeus"

/-- Guard of the fourth rung: the lower-cased message contains "ajuda". -/
def gAjuda (m : String) : Bool := strContains (pyLower m) "ajuda"

/-- Guard of the fifth rung: the original message contains "?". -/
def gQuestion (m : String) : Bool := strContains m "?"

/-- The reply-selection ladder of the `chat` endpoint (`main.py` lines
94-106): `reply = random.choice(BOT_RESPONSES)` is modelled by the
`fallback` argument, then the if/elif chain overwrites it on the first
matching rule. -/
def selectReply (message fallback : String) : String :=
  if gOla message then greetingReply
  else if gComoVai message then wellBeingReply
  else if gFarewell message then farewellReply
  else if gAjuda message then helpReply
  else if gQuestion message then questionReply message
  else fallback

/-- `ChatRequest` of `schemas.py`, after Pydantic validation: `message`
is the validated (trimmed) text, `user_id` the optional opaque id. -/
structure ChatRequest where
  message : String
  user_id : Option String

/-- `ChatResponse` of `schemas.py`: `message_length` and
`processing_time` are `Optional` fields that the endpoint always
fills. Times are modelled as exact rationals. -/
structure ChatResponse where
  reply : String
  timestamp : String
  message_length : Option Nat
  processing_time : Option ℚ

/-- The synthetic delay `0.5 + random.random()` of `main.py`, as a
function of the uniform sample `r` drawn from `[0, 1)`. -/
def delay (r : ℚ) : ℚ := 1/2 + r

/-- Python `round(x, 3)`: the nearest multiple of `1/1000` (Python
breaks exact ties to even, Mathlib's `round` breaks them upward; the
two differ only on exact midpoints, which the claims do not touch). -/
def round3 (q : ℚ) : ℚ := ((round (1000 * q) : ℤ) : ℚ) / 1000

/-- The `chat` endpoint body of `main.py` after validation: `fallback`
is the `random.choice(BOT_RESPONSES)` draw, `r` the `random.random()`
sample for the delay, `overhead` the wall-clock time spent outside the
`asyncio.sleep` (non-negative), and `isoNow` the
`datetime.utcnow().isoformat()` string. -/
def chat (request : ChatRequest) (fallback : String) (r overhead : ℚ)
    (isoNow : String) : ChatResponse :=
  { reply := selectReply request.message fallback
    timestamp := isoNow ++ "Z"
    message_length := some request.message.length
    processing_time := some (round3 (delay r + overhead)) }

lemma selectReply_cases (m f : String) :
    selectReply m f = greetingReply ∨ selectReply m f = wellBeingReply ∨
    selectReply m f = farewellReply ∨ selectReply m f = helpReply ∨
    selectReply m f = questionReply m ∨ selectReply m f = f := by
  unfold selectReply
  split_ifs <;> tauto

lemma questionReply_ne_empty (m : String) : questionReply m ≠ "" := by
  intro h
  have hlen : (questionReply m).length = 0 := by rw [h]; rfl
  rw [questionReply, String.length_append, String.length_append] at hlen
  have h1 : 0 < ("Boa pergunta! Sobre \"" : String).length := by decide
  omega

lemma BOT_RESPONSES_ne_empty : ∀ f ∈ BOT_RESPONSES, f ≠ "" := by decide

lemma selectReply_ne_empty (m f : String) (hf : f ∈ BOT_RESPONSES) :
    selectReply m f ≠ "" := by
  rcases selectReply_cases m f with h | h | h | h | h | h <;> rw [h]
  · decide
  · decide
  · decide
  · decide
  · exact questionReply_ne_empty m
  · exact BOT_RESPONSES_ne_empty f hf

/-- Claim C1: the reply is selected by a first-match-wins ladder in this
exact priority order: greeting ("olá"/"oi" in the lower-cased message),
then well-being ("como vai"), then farewell ("tchau"/"adeus"), then
help ("ajuda"), then the question template ("?" in the original
message), and otherwise the random fallback draw. -/
theorem chat_reply_ladder (m f : String) :
    (gOla m = true → selectReply m f = greetingReply) ∧
    (gOla m = false → gComoVai m = true → selectReply m f = wellBeingReply) ∧
    (gOla m = false → gComoVai m = false → gFarewell m = true →
      selectReply m f = farewellReply) ∧
    (gOla m = false → gComoVai m = false → gFarewell m = false →
      gAjuda m = true → selectReply m f = helpReply) ∧
    (gOla m = false → gComoVai m = false → gFarewell m = false →
      gAjuda m = false → gQuestion m = true →
      selectReply m f = questionReply m) ∧
    (gOla m = false → gComoVai m = false → gFarewell m = false →
      gAjuda m = false → gQuestion m = false → selectReply m f = f) := by
  refine ⟨?_, ?_, ?_, ?_, ?_, ?_⟩ <;> intros <;> simp_all [selectReply]

/-- Witness for C1: "tudo bem?" matches none of the four substring
rules but contains "?", so the question template fires. -/
theorem chat_reply_ladder_witness :
    selectReply "tudo bem?" "x" = questionReply "tudo bem?" :=
  (chat_reply_ladder "tudo bem?" "x").2.2.2.2.1
    (by decide) (by decide) (by decide) (by decide) (by decide)

/-- Claim C6: for every accepted chat request, the response carries
`message_length` equal to the character count of the validated message,
`processing_time` equal to the elapsed time rounded to 3 decimal places
and positive, a non-empty reply, and a timestamp ending in "Z". -/
theorem chat_response_metadata (s : String) (req : ChatRequest)
    (_hval : validate s = .ok req.message) (f : String)
    (hf : f ∈ BOT_RESPONSES) (r overhead : ℚ) (hr : 0 ≤ r)
    (hov : 0 ≤ overhead) (isoNow : String) :
    (chat req f r overhead isoNow).message_length =
      some req.message.length ∧
    (chat req f r overhead isoNow).processing_time =
      some (round3 (delay r + overhead)) ∧
    0 < round3 (delay r + overhead) ∧
    (chat req f r overhead isoNow).reply ≠ "" ∧
    (chat req f r overhead isoNow).timestamp = isoNow ++ "Z" := by
  refine ⟨rfl, rfl, ?_, selectReply_ne_empty _ _ hf, rfl⟩
  have hd : (1:ℚ)/2 ≤ delay r + overhead := by unfold delay; linarith
  have h1 : (500:ℤ) ≤ round (1000 * (delay r + overhead)) := by
    rw [round_eq]
    apply Int.le_floor.mpr
    push_cast
    linarith
  have h2 : (0:ℚ) < ((round (1000 * (delay r + overhead)) : ℤ) : ℚ) := by
    calc (0:ℚ) < 500 := by norm_num
      _ ≤ _ := by exact_mod_cast h1
  exact div_pos h2 (by norm_num)

/-- Witness for C6: the request "Teste" yields `message_length = 5`, a
positive rounded processing time, a non-empty reply, and a timestamp
ending in "Z". -/
theorem chat_response_metadata_witness :
    (chat ⟨"Teste", none⟩ "Interessante! Me conte mais sobre isso." 0 0
      "2025-10-24T10:30:00").message_length = some 5 ∧
    0 < round3 (delay 0 + 0) ∧
    (chat ⟨"Teste", none⟩ "Interessante! Me conte mais sobre isso." 0 0
      "2025-10-24T10:30:00").reply ≠ "" ∧
    (chat ⟨"Teste", none⟩ "Interessante! Me conte mais sobre isso." 0 0
      "2025-10-24T10:30:00").timestamp = "2025-10-24T10:30:00" ++ "Z" := by
  have h := chat_response_metadata "Teste" ⟨"Teste", none⟩ (by rfl)
    "Interessante! Me conte mais sobre isso." (by decide) 0 0 le_rfl le_rfl
    "2025-10-24T10:30:00"
  exact ⟨h.1, h.2.2.1, h.2.2.2.1, h.2.2.2.2⟩

/-- Claim C7: the synthetic delay `0.5 + random.random()` lies in
`[0.5, 1.5)` whenever the uniform sample lies in `[0, 1)`, and it is
exactly the sample translated by the constant `1/2` (so a uniform
sample yields a uniform delay). -/
theorem chat_delay_range (r : ℚ) (h0 : 0 ≤ r) (h1 : r < 1) :
    1/2 ≤ delay r ∧ delay r < 3/2 ∧ delay r = r + 1/2 := by
  unfold delay
  refine ⟨by linarith, by linarith, by ring⟩

/-- Witness for C7: the midpoint sample `1/2` gives delay `1`. -/
theorem chat_delay_range_witness :
    1/2 ≤ delay (1/2) ∧ delay (1/2) < 3/2 ∧ delay (1/2) = 1/2 + 1/2 :=
  chat_delay_range (1/2) (by norm_num) (by norm_num)

/-- Claim C8: `user_id` has no influence on the response: two requests
with the same message and the same random draws, differing only in
`user_id`, produce identical responses (the handler only logs the id). -/
theorem chat_user_id_no_influence (m : String) (u1 u2 : Option String)
    (f : String) (r overhead : ℚ) (isoNow : String) :
    chat ⟨m, u1⟩ f r overhead isoNow = chat ⟨m, u2⟩ f r overhead isoNow :=
  rfl

/-- Claim C9: when any of the five substring rules matches, the reply
does not depend on the random fallback draw: the ladder result is the
same for any two draws. -/
theorem chat_reply_deterministic (m : String)
    (h : gOla m = true ∨ gComoVai m = true ∨ gFarewell m = true ∨
      gAjuda m = true ∨ gQuestion m = true)
    (f1 f2 : String) : selectReply m f1 = selectReply m f2 := by
  unfold selectReply
  rcases h with h | h | h | h | h <;> simp [h]

/-- Witness for C9: "oi" matches the greeting rule, so two different
fallback draws give the same reply. -/
theorem chat_reply_deterministic_witness :
    selectReply "oi" "a" = selectReply "oi" "b" :=
  chat_reply_deterministic "oi" (Or.inl (by decide)) "a" "b"

/-- Claim C10: the reply always comes from the fixed finite set made of
the four contextual replies, the question template instantiated with
the message, and the 8 fallback strings; and it is never empty. -/
theorem chat_reply_pool (m f : String) (hf : f ∈ BOT_RESPONSES) :
    selectReply m f ∈
      greetingReply :: wellBeingReply :: farewellReply :: helpReply ::
        questionReply m :: BOT_RESPONSES ∧
    selectReply m f ≠ "" := by
  refine ⟨?_, selectReply_ne_empty m f hf⟩
  rcases selectReply_cases m f with h | h | h | h | h | h <;> rw [h] <;>
    simp [hf]

/-- Witness for C10: a message matching no rule returns the fallback
draw, which is in the pool and non-empty. -/
theorem chat_reply_pool_witness :
    selectReply "teste" "Posso ajudar você com isso!" ∈
      greetingReply :: wellBeingReply :: farewellReply :: helpReply ::
        questionReply "teste" :: BOT_RESPONSES ∧
    selectReply "teste" "Posso ajudar você com isso!" ≠ "" :=
  chat_reply_pool "teste" "Posso ajudar você com isso!" (by decide)
